import Mathlib

/-!
Shallow embedding of the 2D particle-collision simulation found in
`kalendarz.py` (the `symulator zderzeń` section): constants, the
`Particle` class with `update_position`, `check_walls` and
`collide_with`, the spatial-grid pair enumeration of `simulate`, the
per-step pipeline, and the energy monitor.  Floating-point numbers are
modelled by real numbers; a Python `ZeroDivisionError` is modelled by
`Option` (the result `none`).
-/

namespace Sim

/-- `WIDTH` from the source: window width, 800. -/
def WIDTH : ℝ := 800

/-- `HEIGHT` from the source: window height, 600. -/
def HEIGHT : ℝ := 600

/-- `PARTICLE_RADIUS` from the source: particle radius, 5. -/
def PARTICLE_RADIUS : ℝ := 5

/-- `DT` from the source: the time delta, 1.0. -/
def DT : ℝ := 1

/-- `CELL_SIZE = 4 * PARTICLE_RADIUS` from the source. -/
def CELL_SIZE : ℝ := 4 * PARTICLE_RADIUS

/-- `GRID_W = (WIDTH + CELL_SIZE - 1) // CELL_SIZE` from the source,
as natural-number arithmetic on the integer constants 800 and 20. -/
def GRID_W : ℕ := (800 + 20 - 1) / 20

/-- `GRID_H = (HEIGHT + CELL_SIZE - 1) // CELL_SIZE` from the source,
as natural-number arithmetic on the integer constants 600 and 20. -/
def GRID_H : ℕ := (600 + 20 - 1) / 20

/-- The `Particle` class: position `(x, y)` and velocity `(vx, vy)`. -/
structure Particle where
  x : ℝ
  y : ℝ
  vx : ℝ
  vy : ℝ

/-- `Particle.update_position`: `x += vx * DT; y += vy * DT`. -/
def update_position (p : Particle) : Particle :=
  { p with x := p.x + p.vx * DT, y := p.y + p.vy * DT }

/-- `Particle.check_walls`: on each axis, if the particle's extent leaves
the domain, negate that velocity component and clamp the position to
`max(PARTICLE_RADIUS, min(pos, bound - PARTICLE_RADIUS))`. -/
noncomputable def check_walls (p : Particle) : Particle :=
  let q :=
    if p.x - PARTICLE_RADIUS < 0 ∨ p.x + PARTICLE_RADIUS > WIDTH then
      { p with vx := -p.vx,
               x := max PARTICLE_RADIUS (min p.x (WIDTH - PARTICLE_RADIUS)) }
    else p
  if q.y - PARTICLE_RADIUS < 0 ∨ q.y + PARTICLE_RADIUS > HEIGHT then
    { q with vy := -q.vy,
             y := max PARTICLE_RADIUS (min q.y (HEIGHT - PARTICLE_RADIUS)) }
  else q

end Sim

namespace Sim

/-- After `check_walls`, the position lies inside
`[PARTICLE_RADIUS, bound - PARTICLE_RADIUS]` on both axes. -/
theorem check_walls_bounds (p : Particle) :
    PARTICLE_RADIUS ≤ (check_walls p).x ∧
    (check_walls p).x ≤ WIDTH - PARTICLE_RADIUS ∧
    PARTICLE_RADIUS ≤ (check_walls p).y ∧
    (check_walls p).y ≤ HEIGHT - PARTICLE_RADIUS := by
  have hW : PARTICLE_RADIUS ≤ WIDTH - PARTICLE_RADIUS := by
    norm_num [PARTICLE_RADIUS, WIDTH]
  have hH : PARTICLE_RADIUS ≤ HEIGHT - PARTICLE_RADIUS := by
    norm_num [PARTICLE_RADIUS, HEIGHT]
  unfold check_walls
  by_cases h1 : p.x - PARTICLE_RADIUS < 0 ∨ p.x + PARTICLE_RADIUS > WIDTH <;>
    simp only [h1, if_true, if_false, ite_true, ite_false] <;>
    by_cases h2 : p.y - PARTICLE_RADIUS < 0 ∨ p.y + PARTICLE_RADIUS > HEIGHT <;>
    simp only [h2, if_true, if_false, ite_true, ite_false] <;>
    push_neg at h1 h2 <;>
    refine ⟨?_, ?_, ?_, ?_⟩ <;>
    first
      | exact le_max_left _ _
      | exact max_le hW (min_le_right _ _)
      | exact max_le hH (min_le_right _ _)
      | linarith [h1.1, h1.2]
      | linarith [h2.1, h2.2]

/-- C9: a single body at position `(radius - 1, y)` with velocity `(-s, 0)`,
`s > 0` and `radius ≤ y ≤ height - radius`: after one Integrator step
(`update_position` then `check_walls`), its velocity is `(+s, 0)` and its
position is exactly `(radius, y)`. -/
theorem c9_left_wall_bounce (y s : ℝ) (hs : 0 < s)
    (hy1 : PARTICLE_RADIUS ≤ y) (hy2 : y ≤ HEIGHT - PARTICLE_RADIUS) :
    check_walls (update_position ⟨PARTICLE_RADIUS - 1, y, -s, 0⟩) =
      ⟨PARTICLE_RADIUS, y, s, 0⟩ := by
  have hR : PARTICLE_RADIUS = (5 : ℝ) := rfl
  have hDT : DT = (1 : ℝ) := rfl
  have hx : (update_position ⟨PARTICLE_RADIUS - 1, y, -s, 0⟩) =
      ⟨4 - s, y, -s, 0⟩ := by
    simp only [update_position, hR, hDT, Particle.mk.injEq]
    refine ⟨by ring, by ring, by ring, by ring⟩
  rw [hx]
  unfold check_walls
  have h1 : (4 - s) - PARTICLE_RADIUS < 0 ∨ (4 - s) + PARTICLE_RADIUS > WIDTH :=
    Or.inl (by rw [hR]; linarith)
  have h2 : ¬ (y - PARTICLE_RADIUS < 0 ∨ y + PARTICLE_RADIUS > HEIGHT) := by
    push_neg
    constructor <;> [linarith; linarith [hy2]]
  simp only [h1, h2, if_true, if_false, ite_true, ite_false]
  have hmin : min (4 - s) (WIDTH - PARTICLE_RADIUS) = 4 - s := by
    apply min_eq_left
    rw [hR]; norm_num [WIDTH]; linarith
  have hmax : max PARTICLE_RADIUS (4 - s) = PARTICLE_RADIUS := by
    apply max_eq_left
    rw [hR]; linarith
  rw [hmin, hmax]
  simp only [Particle.mk.injEq]
  refine ⟨by ring, by ring, by ring, by ring⟩

/-- Closed instance of the C9 bounce scenario at `y = 300`, `s = 1`. -/
theorem c9_left_wall_bounce_witness :
    check_walls (update_position ⟨PARTICLE_RADIUS - 1, 300, -1, 0⟩) =
      ⟨PARTICLE_RADIUS, 300, 1, 0⟩ :=
  c9_left_wall_bounce 300 1 (by norm_num)
    (by norm_num [PARTICLE_RADIUS])
    (by norm_num [PARTICLE_RADIUS, HEIGHT])

/-- C10: `check_walls` preserves the body's kinetic energy exactly: each
velocity component is either unchanged or negated, so `vx^2 + vy^2` is
unchanged, regardless of the body's position. -/
theorem c10_check_walls_preserves_energy (p : Particle) :
    (check_walls p).vx ^ 2 + (check_walls p).vy ^ 2 = p.vx ^ 2 + p.vy ^ 2 := by
  unfold check_walls
  by_cases h1 : p.x - PARTICLE_RADIUS < 0 ∨ p.x + PARTICLE_RADIUS > WIDTH <;>
    simp only [h1, if_true, if_false, ite_true, ite_false] <;>
    by_cases h2 : p.y - PARTICLE_RADIUS < 0 ∨ p.y + PARTICLE_RADIUS > HEIGHT <;>
    simp only [h2, if_true, if_false, ite_true, ite_false] <;>
    ring

/-- `Particle.collide_with`, faithfully: broad-phase squared-distance
rejection, unit normal along the center line, closing-velocity test
`dvn > 0`, equal-mass impulse, and positional correction.  The Python
code divides `dx` by `dist` with no guard; when `dist = 0` this raises
`ZeroDivisionError`, modelled here as the result `none`. -/
noncomputable def collide_with (self other : Particle) :
    Option (Particle × Particle) :=
  let dx := other.x - self.x
  let dy := other.y - self.y
  let dist2 := dx * dx + dy * dy
  if 4 * PARTICLE_RADIUS * PARTICLE_RADIUS ≤ dist2 then some (self, other)
  else
    let dist := Real.sqrt dist2
    if dist = 0 then none
    else
      let nx := dx / dist
      let ny := dy / dist
      let dvx := self.vx - other.vx
      let dvy := self.vy - other.vy
      let dvn := dvx * nx + dvy * ny
      if 0 < dvn then some (self, other)
      else
        let impulse := dvn
        let self1 : Particle :=
          { self with vx := self.vx - impulse * nx,
                      vy := self.vy - impulse * ny }
        let other1 : Particle :=
          { other with vx := other.vx + impulse * nx,
                       vy := other.vy + impulse * ny }
        let overlap := 2 * PARTICLE_RADIUS - dist
        if 0 < overlap then
          let sep := overlap / 2
          some ({ self1 with x := self1.x - sep * nx, y := self1.y - sep * ny },
                { other1 with x := other1.x + sep * nx, y := other1.y + sep * ny })
        else some (self1, other1)

/-- Evaluation: the overlapping pair at distance 1 with velocities
`(-1, 0)` and `(1, 0)` (moving apart) gets the impulse and the positional
correction. -/
theorem collide_sep_eval :
    collide_with ⟨0, 0, -1, 0⟩ ⟨1, 0, 1, 0⟩ =
      some (⟨-(9 / 2), 0, 1, 0⟩, ⟨11 / 2, 0, -1, 0⟩) := by
  unfold collide_with
  norm_num [PARTICLE_RADIUS, Real.sqrt_one]

/-- Evaluation: coincident centers reach the unguarded division by zero. -/
theorem collide_zero_dist_eval :
    collide_with ⟨100, 100, 1, 0⟩ ⟨100, 100, -1, 0⟩ = none := by
  unfold collide_with
  norm_num [PARTICLE_RADIUS, Real.sqrt_zero]

/-- C2: the claim that a pair within collision range with non-negative
normal relative velocity (moving apart) receives no impulse is false:
the bodies at distance 1 moving apart at speed 1 each have both velocity
components of interest swapped by the call (the code's `dvn > 0` test has
the sign inverted relative to its own comment). -/
theorem c2_separating_pair_gets_impulse :
    collide_with ⟨0, 0, -1, 0⟩ ⟨1, 0, 1, 0⟩ =
      some (⟨-(9 / 2), 0, 1, 0⟩, ⟨11 / 2, 0, -1, 0⟩) ∧ (1 : ℝ) ≠ -1 := by
  refine ⟨collide_sep_eval, by norm_num⟩

/-- C5: the claim that `collide_with` guards the coincident-center case is
false: with both centers at `(100, 100)` the broad-phase test passes
(`dist2 = 0 < (2r)^2`), `dist = 0`, and the unguarded `dx / dist` raises
`ZeroDivisionError` (modelled as `none`). -/
theorem c5_zero_distance_unguarded :
    collide_with ⟨100, 100, 1, 0⟩ ⟨100, 100, -1, 0⟩ = none :=
  collide_zero_dist_eval

/-- C6 counterexample: two radius-5 bodies on the x-axis at center
distance exactly `2r = 10` with velocities `(+1, 0)` and `(-1, 0)` are
rejected by the strict broad-phase test (`dist2 >= (2r)^2`), so one
`collide_with` call leaves both bodies entirely unchanged; the claimed
head-on exchange to `(-1, 0)` and `(+1, 0)` does not happen. -/
theorem c6_exact_tangency_no_exchange :
    collide_with ⟨0, 0, 1, 0⟩ ⟨10, 0, -1, 0⟩ =
      some (⟨0, 0, 1, 0⟩, ⟨10, 0, -1, 0⟩) ∧ (1 : ℝ) ≠ -1 := by
  constructor
  · unfold collide_with
    norm_num [PARTICLE_RADIUS]
  · norm_num

/-- C6 amended: for two bodies of radius `r` on the x-axis at center
distance exactly `2r` with velocities `(+s, 0)` and `(-s, 0)`, one
`collide_with` call returns with both velocities and both positions
unchanged, because the broad-phase test `dist2 >= (2r)^2` rejects the
pair (tangency is not overlap under the strict comparison). -/
theorem c6_amended_tangent_pair_unchanged (x y s : ℝ) :
    collide_with ⟨x, y, s, 0⟩ ⟨x + 2 * PARTICLE_RADIUS, y, -s, 0⟩ =
      some (⟨x, y, s, 0⟩, ⟨x + 2 * PARTICLE_RADIUS, y, -s, 0⟩) := by
  unfold collide_with
  dsimp only
  rw [if_pos (le_of_eq (by ring))]

/-- C4: whenever `collide_with` returns (in particular whenever it
applies an impulse), the pair's total momentum and total kinetic energy
are exactly conserved in real arithmetic, for all pre-collision
velocities: the impulse moves opposite equal amounts along a unit
normal, and the positional correction never touches velocities. -/
theorem c4_pair_conservation (a b a' b' : Particle)
    (h : collide_with a b = some (a', b')) :
    a'.vx + b'.vx = a.vx + b.vx ∧
    a'.vy + b'.vy = a.vy + b.vy ∧
    0.5 * (a'.vx ^ 2 + a'.vy ^ 2) + 0.5 * (b'.vx ^ 2 + b'.vy ^ 2) =
      0.5 * (a.vx ^ 2 + a.vy ^ 2) + 0.5 * (b.vx ^ 2 + b.vy ^ 2) := by
  simp only [collide_with] at h
  split_ifs at h with h1 h2 h3 h4 <;>
    simp only [Option.some.injEq, Prod.mk.injEq, reduceCtorEq] at h
  · obtain ⟨rfl, rfl⟩ := h
    refine ⟨by ring, by ring, by ring⟩
  · obtain ⟨rfl, rfl⟩ := h
    refine ⟨by ring, by ring, by ring⟩
  · obtain ⟨rfl, rfl⟩ := h
    have hs : Real.sqrt ((b.x - a.x) * (b.x - a.x) + (b.y - a.y) * (b.y - a.y)) ≠ 0 := h2
    have hss : Real.sqrt ((b.x - a.x) * (b.x - a.x) + (b.y - a.y) * (b.y - a.y)) *
        Real.sqrt ((b.x - a.x) * (b.x - a.x) + (b.y - a.y) * (b.y - a.y)) =
        (b.x - a.x) * (b.x - a.x) + (b.y - a.y) * (b.y - a.y) :=
      Real.mul_self_sqrt (add_nonneg (mul_self_nonneg _) (mul_self_nonneg _))
    have hn : ((b.x - a.x) / Real.sqrt ((b.x - a.x) * (b.x - a.x) + (b.y - a.y) * (b.y - a.y))) ^ 2 +
        ((b.y - a.y) / Real.sqrt ((b.x - a.x) * (b.x - a.x) + (b.y - a.y) * (b.y - a.y))) ^ 2 = 1 := by
      field_simp
      linarith [hss]
    refine ⟨by ring, by ring, ?_⟩
    dsimp only
    linear_combination
      (((a.vx - b.vx) * ((b.x - a.x) / Real.sqrt ((b.x - a.x) * (b.x - a.x) + (b.y - a.y) * (b.y - a.y))) +
        (a.vy - b.vy) * ((b.y - a.y) / Real.sqrt ((b.x - a.x) * (b.x - a.x) + (b.y - a.y) * (b.y - a.y)))) ^ 2) * hn
  · obtain ⟨rfl, rfl⟩ := h
    have hs : Real.sqrt ((b.x - a.x) * (b.x - a.x) + (b.y - a.y) * (b.y - a.y)) ≠ 0 := h2
    have hss : Real.sqrt ((b.x - a.x) * (b.x - a.x) + (b.y - a.y) * (b.y - a.y)) *
        Real.sqrt ((b.x - a.x) * (b.x - a.x) + (b.y - a.y) * (b.y - a.y)) =
        (b.x - a.x) * (b.x - a.x) + (b.y - a.y) * (b.y - a.y) :=
      Real.mul_self_sqrt (add_nonneg (mul_self_nonneg _) (mul_self_nonneg _))
    have hn : ((b.x - a.x) / Real.sqrt ((b.x - a.x) * (b.x - a.x) + (b.y - a.y) * (b.y - a.y))) ^ 2 +
        ((b.y - a.y) / Real.sqrt ((b.x - a.x) * (b.x - a.x) + (b.y - a.y) * (b.y - a.y))) ^ 2 = 1 := by
      field_simp
      linarith [hss]
    refine ⟨by ring, by ring, ?_⟩
    dsimp only
    linear_combination
      (((a.vx - b.vx) * ((b.x - a.x) / Real.sqrt ((b.x - a.x) * (b.x - a.x) + (b.y - a.y) * (b.y - a.y))) +
        (a.vy - b.vy) * ((b.y - a.y) / Real.sqrt ((b.x - a.x) * (b.x - a.x) + (b.y - a.y) * (b.y - a.y)))) ^ 2) * hn

/-- Closed instance of C4 conservation at the concrete resolved pair
from `collide_sep_eval`. -/
theorem c4_pair_conservation_witness :
    ((⟨-(9 / 2), 0, 1, 0⟩ : Particle).vx + (⟨11 / 2, 0, -1, 0⟩ : Particle).vx =
      (⟨0, 0, -1, 0⟩ : Particle).vx + (⟨1, 0, 1, 0⟩ : Particle).vx) ∧
    ((⟨-(9 / 2), 0, 1, 0⟩ : Particle).vy + (⟨11 / 2, 0, -1, 0⟩ : Particle).vy =
      (⟨0, 0, -1, 0⟩ : Particle).vy + (⟨1, 0, 1, 0⟩ : Particle).vy) ∧
    (0.5 * ((⟨-(9 / 2), 0, 1, 0⟩ : Particle).vx ^ 2 + (⟨-(9 / 2), 0, 1, 0⟩ : Particle).vy ^ 2) +
      0.5 * ((⟨11 / 2, 0, -1, 0⟩ : Particle).vx ^ 2 + (⟨11 / 2, 0, -1, 0⟩ : Particle).vy ^ 2) =
      0.5 * ((⟨0, 0, -1, 0⟩ : Particle).vx ^ 2 + (⟨0, 0, -1, 0⟩ : Particle).vy ^ 2) +
      0.5 * ((⟨1, 0, 1, 0⟩ : Particle).vx ^ 2 + (⟨1, 0, 1, 0⟩ : Particle).vy ^ 2)) :=
  c4_pair_conservation ⟨0, 0, -1, 0⟩ ⟨1, 0, 1, 0⟩ ⟨-(9 / 2), 0, 1, 0⟩ ⟨11 / 2, 0, -1, 0⟩
    collide_sep_eval

/-- C7: for a pair with `0 < dist2 < (2r)^2` on which the impulse branch
is reached (`dvn <= 0`, stated via its numerator, the relative velocity
dotted with the center offset), the positional correction leaves the two
centers at squared distance exactly `(2r)^2`: exact tangency. -/
theorem c7_correction_restores_tangency (a b a' b' : Particle)
    (hpos : 0 < (b.x - a.x) * (b.x - a.x) + (b.y - a.y) * (b.y - a.y))
    (hlt : (b.x - a.x) * (b.x - a.x) + (b.y - a.y) * (b.y - a.y) <
      4 * PARTICLE_RADIUS * PARTICLE_RADIUS)
    (hdot : (a.vx - b.vx) * (b.x - a.x) + (a.vy - b.vy) * (b.y - a.y) ≤ 0)
    (h : collide_with a b = some (a', b')) :
    (b'.x - a'.x) ^ 2 + (b'.y - a'.y) ^ 2 = (2 * PARTICLE_RADIUS) ^ 2 := by
  have hs0 : (0:ℝ) <
      Real.sqrt ((b.x - a.x) * (b.x - a.x) + (b.y - a.y) * (b.y - a.y)) :=
    Real.sqrt_pos.mpr hpos
  have hss : Real.sqrt ((b.x - a.x) * (b.x - a.x) + (b.y - a.y) * (b.y - a.y)) *
      Real.sqrt ((b.x - a.x) * (b.x - a.x) + (b.y - a.y) * (b.y - a.y)) =
      (b.x - a.x) * (b.x - a.x) + (b.y - a.y) * (b.y - a.y) :=
    Real.mul_self_sqrt (add_nonneg (mul_self_nonneg _) (mul_self_nonneg _))
  simp only [collide_with] at h
  rw [if_neg (not_le.mpr hlt)] at h
  rw [if_neg hs0.ne'] at h
  have hknot : ¬ ((0:ℝ) <
      (a.vx - b.vx) * ((b.x - a.x) / Real.sqrt ((b.x - a.x) * (b.x - a.x) + (b.y - a.y) * (b.y - a.y))) +
      (a.vy - b.vy) * ((b.y - a.y) / Real.sqrt ((b.x - a.x) * (b.x - a.x) + (b.y - a.y) * (b.y - a.y)))) := by
    push_neg
    have hrw : (a.vx - b.vx) * ((b.x - a.x) / Real.sqrt ((b.x - a.x) * (b.x - a.x) + (b.y - a.y) * (b.y - a.y))) +
        (a.vy - b.vy) * ((b.y - a.y) / Real.sqrt ((b.x - a.x) * (b.x - a.x) + (b.y - a.y) * (b.y - a.y))) =
        ((a.vx - b.vx) * (b.x - a.x) + (a.vy - b.vy) * (b.y - a.y)) /
          Real.sqrt ((b.x - a.x) * (b.x - a.x) + (b.y - a.y) * (b.y - a.y)) := by
      ring
    rw [hrw]
    exact div_nonpos_iff.mpr (Or.inr ⟨hdot, hs0.le⟩)
  rw [if_neg hknot] at h
  have hover : (0:ℝ) <
      2 * PARTICLE_RADIUS - Real.sqrt ((b.x - a.x) * (b.x - a.x) + (b.y - a.y) * (b.y - a.y)) := by
    have h2R : (0:ℝ) < 2 * PARTICLE_RADIUS := by norm_num [PARTICLE_RADIUS]
    have hlt2 : (b.x - a.x) * (b.x - a.x) + (b.y - a.y) * (b.y - a.y) <
        (2 * PARTICLE_RADIUS) ^ 2 := by nlinarith [hlt]
    have := (Real.sqrt_lt' h2R).mpr hlt2
    linarith
  rw [if_pos hover] at h
  simp only [Option.some.injEq, Prod.mk.injEq] at h
  obtain ⟨rfl, rfl⟩ := h
  dsimp only
  set s := Real.sqrt ((b.x - a.x) * (b.x - a.x) + (b.y - a.y) * (b.y - a.y)) with hsdef
  have hsne : s ≠ 0 := hs0.ne'
  field_simp
  linear_combination (-(16 * PARTICLE_RADIUS ^ 2)) * hss

/-- Evaluation: the motionless overlapping pair at distance 6 is pushed
apart to distance 10 with zero impulse. -/
theorem collide_push_eval :
    collide_with ⟨0, 0, 0, 0⟩ ⟨6, 0, 0, 0⟩ =
      some (⟨-2, 0, 0, 0⟩, ⟨8, 0, 0, 0⟩) := by
  have h36 : Real.sqrt (36:ℝ) = 6 := by
    rw [show (36:ℝ) = 6 ^ 2 by norm_num]
    exact Real.sqrt_sq (by norm_num)
  unfold collide_with
  norm_num [PARTICLE_RADIUS, h36]

/-- Closed instance of C7 tangency restoration at the concrete pair from
`collide_push_eval`. -/
theorem c7_correction_restores_tangency_witness :
    ((⟨8, 0, 0, 0⟩ : Particle).x - (⟨-2, 0, 0, 0⟩ : Particle).x) ^ 2 +
      ((⟨8, 0, 0, 0⟩ : Particle).y - (⟨-2, 0, 0, 0⟩ : Particle).y) ^ 2 =
      (2 * PARTICLE_RADIUS) ^ 2 :=
  c7_correction_restores_tangency ⟨0, 0, 0, 0⟩ ⟨6, 0, 0, 0⟩ ⟨-2, 0, 0, 0⟩ ⟨8, 0, 0, 0⟩
    (by norm_num) (by norm_num [PARTICLE_RADIUS]) (by norm_num) collide_push_eval

/-- The half-stencil of neighbor-cell offsets from `simulate`:
`(1, 0), (1, -1), (0, -1), (-1, -1)`, in source order. -/
def stencil : List (ℤ × ℤ) := [(1, 0), (1, -1), (0, -1), (-1, -1)]

/-- The body indices `i < n` assigned to cell `c`, in increasing order:
the grid fill `grid[gx][gy].append(i)` runs over `enumerate(particles)`,
so each cell's bucket is ascending in body index. -/
def cellBodies (cellOf : ℕ → ℤ × ℤ) (n : ℕ) (c : ℤ × ℤ) : List ℕ :=
  (List.range n).filter (fun i => decide (cellOf i = c))

/-- Same-cell pairs in source order:
`for i in range(len(cell)): for j in range(i + 1, len(cell))`. -/
def pairsOf : List ℕ → List (ℕ × ℕ)
  | [] => []
  | a :: rest => rest.map (fun b => (a, b)) ++ pairsOf rest

/-- Cross-cell candidate pairs with the `if i < j` guard from the source:
`for i in cell: for j in neighbor: if i < j: check (i, j)`. -/
def crossPairs (cell nbr : List ℕ) : List (ℕ × ℕ) :=
  cell.flatMap (fun i => (nbr.filter (fun j => decide (i < j))).map (fun j => (i, j)))

/-- Cell-coordinate iteration order of `simulate`: `gx` outer, `gy` inner. -/
def cellsList (gw gh : ℕ) : List (ℤ × ℤ) :=
  (List.range gw).flatMap (fun gx => (List.range gh).map (fun gy => ((gx : ℤ), (gy : ℤ))))

/-- The in-grid test `0 <= nx < GRID_W and 0 <= ny < GRID_H`. -/
def inGrid (gw gh : ℕ) (c : ℤ × ℤ) : Bool :=
  decide (0 ≤ c.1) && decide (c.1 < (gw : ℤ)) && decide (0 ≤ c.2) && decide (c.2 < (gh : ℤ))

/-- The Collision Resolver's candidate-pair enumeration from `simulate`:
for every cell in iteration order, all same-cell pairs, then for each
half-stencil offset whose target cell is in the grid, all cross-cell
pairs `(i, j)` with `i` in the base cell, `j` in the neighbor cell and
`i < j`. -/
def resolverPairs (gw gh : ℕ) (cellOf : ℕ → ℤ × ℤ) (n : ℕ) : List (ℕ × ℕ) :=
  (cellsList gw gh).flatMap (fun c =>
    pairsOf (cellBodies cellOf n c) ++
    stencil.flatMap (fun d =>
      if inGrid gw gh (c.1 + d.1, c.2 + d.2) then
        crossPairs (cellBodies cellOf n c) (cellBodies cellOf n (c.1 + d.1, c.2 + d.2))
      else []))

/-- Brute-force enumeration, following the spec's words: every unordered
pair `(i, j)`, `i < j`, of bodies whose assigned cells are identical or
8-connected adjacent (both coordinates within 1). -/
def bruteForcePairs (cellOf : ℕ → ℤ × ℤ) (n : ℕ) : List (ℕ × ℕ) :=
  (List.range n).flatMap (fun i =>
    ((List.range n).filter (fun j =>
        decide (i < j) &&
        decide (((cellOf i).1 - (cellOf j).1).natAbs ≤ 1) &&
        decide (((cellOf i).2 - (cellOf j).2).natAbs ≤ 1))).map (fun j => (i, j)))

/-- The two-body grid placement refuting C1: body 0 in cell `(1, 0)`,
body 1 in cell `(0, 0)`. -/
def c1CellOf (i : ℕ) : ℤ × ℤ := if i = 0 then (1, 0) else (0, 0)

set_option maxRecDepth 40000 in
/-- C1 fails on the code: with body 0 in cell `(1, 0)` and body 1 in the
8-connected-adjacent cell `(0, 0)`, the brute-force enumeration contains
the pair `(0, 1)` but the resolver's enumeration over the real
`GRID_W x GRID_H` grid is empty: the `i < j` guard drops the pair when
the larger body index sits in the base cell of the only stencil visit,
so the pair is tested by no cell at all (an omission, not a dedup). -/
theorem c1_half_stencil_omits_pair :
    resolverPairs GRID_W GRID_H c1CellOf 2 = [] ∧
    bruteForcePairs c1CellOf 2 = [(0, 1)] := by
  constructor
  · decide
  · decide

/-- Cell assignment from `simulate`'s grid fill:
`gx = int(p.x // CELL_SIZE)` clamped into `[0, GRID_W - 1]`, and likewise
`gy` into `[0, GRID_H - 1]`. -/
noncomputable def cellIndex (p : Particle) : ℤ × ℤ :=
  (max 0 (min ⌊p.x / CELL_SIZE⌋ ((GRID_W : ℤ) - 1)),
   max 0 (min ⌊p.y / CELL_SIZE⌋ ((GRID_H : ℤ) - 1)))

/-- Integration phase of one step: `p.update_position(); p.check_walls()`
for every body in order. -/
noncomputable def integratePhase (ps : List Particle) : List Particle :=
  ps.map (fun p => check_walls (update_position p))

/-- One candidate-pair resolution: read bodies `i` and `j` from the
store, run `collide_with`, write both back in place; a
`ZeroDivisionError` (`none`) aborts the step. -/
noncomputable def applyPair (ps : List Particle) (ij : ℕ × ℕ) :
    Option (List Particle) :=
  (collide_with (ps.getD ij.1 ⟨0, 0, 0, 0⟩) (ps.getD ij.2 ⟨0, 0, 0, 0⟩)).map
    (fun r => (ps.set ij.1 r.1).set ij.2 r.2)

/-- One full physics step of `simulate`'s loop: integrate and bounce all
bodies, rebuild the grid from the updated positions (the grid is built
once, before any resolution), then resolve the enumerated candidate
pairs sequentially in enumeration order. -/
noncomputable def stepE (ps : List Particle) : Option (List Particle) :=
  let qs := integratePhase ps
  (resolverPairs GRID_W GRID_H (fun i => cellIndex (qs.getD i ⟨0, 0, 0, 0⟩))
    qs.length).foldlM applyPair qs

/-- `total_energy` and `current_energy` from `simulate`:
`sum(0.5 * (p.vx ** 2 + p.vy ** 2) for p in particles)`. -/
def totalEnergy (ps : List Particle) : ℝ :=
  (ps.map (fun p => 0.5 * (p.vx ^ 2 + p.vy ^ 2))).sum

/-- `k` physics steps from the initial state. -/
noncomputable def simSteps (ps0 : List Particle) : ℕ → Option (List Particle)
  | 0 => some ps0
  | k + 1 => (simSteps ps0 k).bind stepE

/-- The Energy Monitor's diagnostic after step `k`: the printed warning
carries the absolute delta `|E - E0|` against the baseline captured once
at initialization, and is emitted exactly when the delta exceeds `1e-3`. -/
noncomputable def diagnosticAt (ps0 : List Particle) (k : ℕ) : Option ℝ :=
  match simSteps ps0 (k + 1) with
  | none => none
  | some ps =>
    if 1 / 1000 < |totalEnergy ps - totalEnergy ps0| then
      some |totalEnergy ps - totalEnergy ps0|
    else none

/-- `cellBodies` only looks at the assignment below `n`. -/
theorem cellBodies_congr (f g : ℕ → ℤ × ℤ) (n : ℕ)
    (h : ∀ i < n, f i = g i) (c : ℤ × ℤ) :
    cellBodies f n c = cellBodies g n c := by
  unfold cellBodies
  apply List.filter_congr
  intro i hi
  rw [h i (List.mem_range.mp hi)]

/-- `resolverPairs` only looks at the assignment below `n`. -/
theorem resolverPairs_congr (gw gh : ℕ) (f g : ℕ → ℤ × ℤ) (n : ℕ)
    (h : ∀ i < n, f i = g i) :
    resolverPairs gw gh f n = resolverPairs gw gh g n := by
  unfold resolverPairs
  apply List.flatMap_congr
  intro c _
  simp only [cellBodies_congr f g n h]

/-- Evaluation: both bodies of the C3 scenario sit in grid cell `(0, 15)`
after integration. -/
theorem cellIndex_p0 : cellIndex ⟨5, 300, 0, 0⟩ = (0, 15) := by
  have hcs : CELL_SIZE = (20 : ℝ) := by norm_num [CELL_SIZE, PARTICLE_RADIUS]
  unfold cellIndex
  dsimp only
  rw [hcs]
  have h1 : ⌊(5 : ℝ) / 20⌋ = 0 := by
    rw [Int.floor_eq_iff]; norm_num
  have h2 : ⌊(300 : ℝ) / 20⌋ = 15 := by
    rw [Int.floor_eq_iff]; norm_num
  rw [h1, h2]
  norm_num [GRID_W, GRID_H]

/-- Evaluation: the second body of the C3 scenario also sits in grid cell
`(0, 15)`. -/
theorem cellIndex_p1 : cellIndex ⟨6, 300, 0, 0⟩ = (0, 15) := by
  have hcs : CELL_SIZE = (20 : ℝ) := by norm_num [CELL_SIZE, PARTICLE_RADIUS]
  unfold cellIndex
  dsimp only
  rw [hcs]
  have h1 : ⌊(6 : ℝ) / 20⌋ = 0 := by
    rw [Int.floor_eq_iff]; norm_num
  have h2 : ⌊(300 : ℝ) / 20⌋ = 15 := by
    rw [Int.floor_eq_iff]; norm_num
  rw [h1, h2]
  norm_num [GRID_W, GRID_H]

/-- Evaluation: the integration phase leaves the motionless C3 pair in
place (both bodies are inside the domain, velocities are zero). -/
theorem integrate_two :
    integratePhase [⟨5, 300, 0, 0⟩, ⟨6, 300, 0, 0⟩] =
      [⟨5, 300, 0, 0⟩, ⟨6, 300, 0, 0⟩] := by
  unfold integratePhase update_position check_walls
  norm_num [DT, PARTICLE_RADIUS, WIDTH, HEIGHT]

/-- Evaluation: the motionless overlapping pair at distance 1 gets zero
impulse (`dvn = 0` is not `> 0`) and the positional correction pushes the
bodies to distance 10. -/
theorem collide_touch_eval :
    collide_with ⟨5, 300, 0, 0⟩ ⟨6, 300, 0, 0⟩ =
      some (⟨1 / 2, 300, 0, 0⟩, ⟨21 / 2, 300, 0, 0⟩) := by
  unfold collide_with
  norm_num [PARTICLE_RADIUS, Real.sqrt_one]

set_option maxRecDepth 40000 in
/-- Evaluation of one full step on the C3 scenario: integration is a
no-op, both bodies land in cell `(0, 15)`, the resolver enumerates the
single same-cell pair `(0, 1)`, and its positional correction pushes
body 0 to `x = 1/2`. -/
theorem stepE_two :
    stepE [⟨5, 300, 0, 0⟩, ⟨6, 300, 0, 0⟩] =
      some [⟨1 / 2, 300, 0, 0⟩, ⟨21 / 2, 300, 0, 0⟩] := by
  have hf : ∀ i < 2,
      cellIndex (([⟨5, 300, 0, 0⟩, ⟨6, 300, 0, 0⟩] : List Particle).getD i ⟨0, 0, 0, 0⟩) =
        (fun _ : ℕ => ((0 : ℤ), (15 : ℤ))) i := by
    intro i hi
    interval_cases i
    · simpa using cellIndex_p0
    · simpa using cellIndex_p1
  have hlen : ([⟨5, 300, 0, 0⟩, ⟨6, 300, 0, 0⟩] : List Particle).length = 2 := rfl
  have hrp : resolverPairs GRID_W GRID_H (fun _ : ℕ => ((0 : ℤ), (15 : ℤ))) 2 =
      [(0, 1)] := by decide
  simp only [stepE]
  rw [integrate_two, hlen,
    resolverPairs_congr GRID_W GRID_H _ (fun _ : ℕ => ((0 : ℤ), (15 : ℤ))) 2 hf, hrp]
  simp only [List.foldlM, applyPair, List.getD, List.get?_cons_zero, List.get?_cons_succ,
    Option.getD_some, collide_touch_eval, Option.map_some, List.set, Option.bind_some,
    Option.pure_def]
  rfl

/-- C3 counterexample: after one full step (position update, wall
handling, and all collision resolutions) on two motionless in-bounds
bodies at `(5, 300)` and `(6, 300)`, body 0 ends at `x = 1/2 < radius`:
the positional correction runs after wall handling and can push a body
out of the domain, so the claimed invariant fails at the end of the
step. -/
theorem c3_escape_counterexample :
    stepE [⟨5, 300, 0, 0⟩, ⟨6, 300, 0, 0⟩] =
      some [⟨1 / 2, 300, 0, 0⟩, ⟨21 / 2, 300, 0, 0⟩] ∧
    (1 / 2 : ℝ) < PARTICLE_RADIUS :=
  ⟨stepE_two, by norm_num [PARTICLE_RADIUS]⟩

/-- C3 amended: the containment invariant holds after the position
update and wall handling of a step (before collision resolution): every
body then satisfies `radius ≤ x ≤ width - radius` and
`radius ≤ y ≤ height - radius`.  The subsequent positional correction
may move a body outside these bounds until the next step's wall pass. -/
theorem c3_amended_integrate_bounds (ps : List Particle) (q : Particle)
    (hq : q ∈ integratePhase ps) :
    PARTICLE_RADIUS ≤ q.x ∧ q.x ≤ WIDTH - PARTICLE_RADIUS ∧
    PARTICLE_RADIUS ≤ q.y ∧ q.y ≤ HEIGHT - PARTICLE_RADIUS := by
  unfold integratePhase at hq
  obtain ⟨p, hp, rfl⟩ := List.mem_map.mp hq
  exact check_walls_bounds (update_position p)

/-- Closed instance of the amended C3 bound for a body starting at the
origin corner. -/
theorem c3_amended_integrate_bounds_witness :
    PARTICLE_RADIUS ≤ (check_walls (update_position ⟨0, 0, 0, 0⟩)).x ∧
    (check_walls (update_position ⟨0, 0, 0, 0⟩)).x ≤ WIDTH - PARTICLE_RADIUS ∧
    PARTICLE_RADIUS ≤ (check_walls (update_position ⟨0, 0, 0, 0⟩)).y ∧
    (check_walls (update_position ⟨0, 0, 0, 0⟩)).y ≤ HEIGHT - PARTICLE_RADIUS :=
  c3_amended_integrate_bounds [⟨0, 0, 0, 0⟩] _ (by simp [integratePhase])

/-- C8: after any step that completes, the Energy Monitor emits its
diagnostic carrying the absolute delta `|E - E0|` exactly when the delta
exceeds `1e-3`, where `E0` is the baseline captured once at
initialization; and the next physics state is `stepE` of the current
one regardless of whether the diagnostic fired (non-fatal). -/
theorem c8_energy_monitor (ps0 : List Particle) (k : ℕ) (ps : List Particle)
    (h : simSteps ps0 (k + 1) = some ps) :
    (1 / 1000 < |totalEnergy ps - totalEnergy ps0| →
      diagnosticAt ps0 k = some |totalEnergy ps - totalEnergy ps0|) ∧
    (¬ 1 / 1000 < |totalEnergy ps - totalEnergy ps0| →
      diagnosticAt ps0 k = none) ∧
    simSteps ps0 (k + 2) = stepE ps := by
  refine ⟨?_, ?_, ?_⟩
  · intro hgt
    unfold diagnosticAt
    rw [h]
    simp only [if_pos hgt]
  · intro hng
    unfold diagnosticAt
    rw [h]
    simp only [if_neg hng]
  · show simSteps ps0 (k + 1 + 1) = stepE ps
    unfold simSteps
    rw [h]
    rfl

/-- Closed instance of C8 at the two-body scenario: all velocities are
zero, the energy delta is zero, so no diagnostic is emitted after the
first step. -/
theorem c8_energy_monitor_witness :
    diagnosticAt [⟨5, 300, 0, 0⟩, ⟨6, 300, 0, 0⟩] 0 = none := by
  have h : simSteps [⟨5, 300, 0, 0⟩, ⟨6, 300, 0, 0⟩] 1 =
      some [⟨1 / 2, 300, 0, 0⟩, ⟨21 / 2, 300, 0, 0⟩] := by
    show (simSteps [⟨5, 300, 0, 0⟩, ⟨6, 300, 0, 0⟩] 0).bind stepE =
      some [⟨1 / 2, 300, 0, 0⟩, ⟨21 / 2, 300, 0, 0⟩]
    simp [simSteps, stepE_two]
  refine (c8_energy_monitor [⟨5, 300, 0, 0⟩, ⟨6, 300, 0, 0⟩] 0
    [⟨1 / 2, 300, 0, 0⟩, ⟨21 / 2, 300, 0, 0⟩] h).2.1 ?_
  norm_num [totalEnergy]

end Sim
